import Mathlib

/-!
Verification of the BRITAIS adaptive exercise evaluation pipeline
(`app.py`): listening task fallback bank and deterministic grading,
writing/speaking AI-judge wrappers with their degraded paths, the
dashboard aggregation (overall score, level mapping, practice streak)
and the three submission-persisting routes.

Modelling conventions:
* Python floats are modelled as exact rationals (`ℚ`); the scores the
  pipeline manipulates are small decimal values for which float noise
  is irrelevant to the properties below.
* External AI / network calls are modelled by an oracle value
  (`AIOutcome` / `GenOutcome`): the call either returns a payload or
  raises, and the surrounding Python `try/except` is modelled by
  matching on the oracle.  File and database I/O is out of scope.
* Python's `while` loops over finite day sets are modelled with an
  explicit fuel argument large enough to be exact (proved below).
-/

/-- Python's built-in `round` on a non-negative exact value:
round-half-to-even (banker's rounding), as used by
`round(sum(scores) / len(scores))` in `dashboard`. -/
def pyRound (q : ℚ) : Int :=
  let n : Int := ⌊q⌋
  let r : ℚ := q - n
  if r < 1/2 then n
  else if 1/2 < r then n + 1
  else if n % 2 = 0 then n else n + 1

/-- Substring test, modelling Python's `needle in hay` on strings
(used by `"insufficient_quota" in repr(e)` in the speaking evaluator). -/
def containsSub (hay needle : String) : Bool :=
  (List.range (hay.data.length + 1)).any
    (fun i => (hay.data.drop i).take needle.data.length == needle.data)

/-- Python's `str.strip()`: drop leading and trailing whitespace
(modelled over the character list). -/
def pyStrip (s : String) : String :=
  String.mk (((s.data.dropWhile Char.isWhitespace).reverse.dropWhile Char.isWhitespace).reverse)

/-- Word characters of the regex `\w` (ASCII range), used by
`re.findall(r"\b\w+\b", text)` in the writing heuristic. -/
def isWordChar (c : Char) : Bool := c.isAlphanum || c = '_'

/-- Accumulating splitter: maximal runs of word characters. -/
def wordRunsAux : List Char → List Char → List (List Char)
  | acc, [] => if acc.isEmpty then [] else [acc.reverse]
  | acc, c :: cs =>
    if isWordChar c then wordRunsAux (c :: acc) cs
    else if acc.isEmpty then wordRunsAux [] cs
    else acc.reverse :: wordRunsAux [] cs

/-- Model of `re.findall(r"\b\w+\b", text)`: the list of maximal runs
of word characters of `text` (ASCII word characters; the pipeline only
uses the length of this list). -/
def pyWords (s : String) : List String :=
  (wordRunsAux [] s.data).map String.mk

/-- One lowercase hexadecimal digit. -/
def hexChar (n : Nat) : Char :=
  if n = 0 then '0' else if n = 1 then '1' else if n = 2 then '2'
  else if n = 3 then '3' else if n = 4 then '4' else if n = 5 then '5'
  else if n = 6 then '6' else if n = 7 then '7' else if n = 8 then '8'
  else if n = 9 then '9' else if n = 10 then 'a' else if n = 11 then 'b'
  else if n = 12 then 'c' else if n = 13 then 'd' else if n = 14 then 'e'
  else 'f'

/-- Fixed-width big-endian lowercase hex rendering of a natural number,
exactly `width` digits (leading zeros kept), as `hexdigest()` renders
a hash value. -/
def toHexChars : Nat → Nat → List Char
  | 0, _ => []
  | w + 1, n => toHexChars w (n / 16) ++ [hexChar (n % 16)]

/-- UTF-8 encoding of one character (Python `str.encode("utf-8")`). -/
def utf8Char (c : Char) : List Nat :=
  let n := c.toNat
  if n < 128 then [n]
  else if n < 2048 then [192 + n / 64, 128 + n % 64]
  else if n < 65536 then [224 + n / 4096, 128 + (n / 64) % 64, 128 + n % 64]
  else [240 + n / 262144, 128 + (n / 4096) % 64, 128 + (n / 64) % 64, 128 + n % 64]

/-- UTF-8 byte sequence of a string. -/
def utf8Bytes (s : String) : List Nat :=
  s.data.foldr (fun c acc => utf8Char c ++ acc) []

/-! ### SHA-1 (`hashlib.sha1`), over byte lists, words as `Nat % 2^32` -/

/-- 2^32, the word modulus of SHA-1. -/
def M32 : Nat := 4294967296

/-- 32-bit left rotation by `k` (for `k ≤ 32`). -/
def rotl (k n : Nat) : Nat :=
  ((n % M32) * 2 ^ k) % M32 + (n % M32) / 2 ^ (32 - k)

/-- The SHA-1 round function `f_t(b,c,d)`. -/
def sha1F (t b c d : Nat) : Nat :=
  if t < 20 then (b &&& c) ||| (((M32 - 1) ^^^ (b % M32)) &&& d)
  else if t < 40 then b ^^^ c ^^^ d
  else if t < 60 then (b &&& c) ||| (b &&& d) ||| (c &&& d)
  else b ^^^ c ^^^ d

/-- The SHA-1 round constant `K_t`. -/
def sha1K (t : Nat) : Nat :=
  if t < 20 then 0x5A827999
  else if t < 40 then 0x6ED9EBA1
  else if t < 60 then 0x8F1BBCDC
  else 0xCA62C1D6

/-- Big-endian packing of bytes into 32-bit words. -/
def bytesToWords : List Nat → List Nat
  | b0 :: b1 :: b2 :: b3 :: rest =>
    (((b0 * 256 + b1) * 256 + b2) * 256 + b3) :: bytesToWords rest
  | _ => []

/-- Extend the 16 message words to 80
(`w[i] = (w[i-3] xor w[i-8] xor w[i-14] xor w[i-16]) rotl 1`). -/
def sha1Schedule : Array Nat → Nat → Array Nat
  | ws, 0 => ws
  | ws, fuel + 1 =>
    let i := ws.size
    let w := rotl 1 ((ws.getD (i - 3) 0) ^^^ (ws.getD (i - 8) 0) ^^^
                     (ws.getD (i - 14) 0) ^^^ (ws.getD (i - 16) 0))
    sha1Schedule (ws.push w) fuel

/-- The SHA-1 hash state: five 32-bit words `(a, b, c, d, e)`. -/
abbrev Sha1State : Type := Nat × Nat × Nat × Nat × Nat

/-- One compression round. -/
def sha1Round (ws : Array Nat) (t : Nat) (st : Sha1State) : Sha1State :=
  let a := st.1
  let b := st.2.1
  let c := st.2.2.1
  let d := st.2.2.2.1
  let e := st.2.2.2.2
  let temp := (rotl 5 a + sha1F t b c d + e + sha1K t + ws.getD t 0) % M32
  (temp, a, rotl 30 b, c, d)

/-- Iterate the compression rounds `t, t+1, …` for `fuel` steps. -/
def sha1RoundsFrom (ws : Array Nat) : Nat → Sha1State → Nat → Sha1State
  | _, st, 0 => st
  | t, st, fuel + 1 => sha1RoundsFrom ws (t + 1) (sha1Round ws t st) fuel

/-- Process one 64-byte chunk. -/
def sha1ChunkStep (h : Sha1State) (chunk : List Nat) : Sha1State :=
  let ws := sha1Schedule (bytesToWords chunk).toArray 64
  let r := sha1RoundsFrom ws 0 h 80
  ((h.1 + r.1) % M32, (h.2.1 + r.2.1) % M32, (h.2.2.1 + r.2.2.1) % M32,
   (h.2.2.2.1 + r.2.2.2.1) % M32, (h.2.2.2.2 + r.2.2.2.2) % M32)

/-- Process the padded message 64 bytes at a time.  The fuel argument
(called with the message length, which bounds the number of chunks)
makes the recursion structural. -/
def sha1Chunks : Nat → Sha1State → List Nat → Sha1State
  | 0, h, _ => h
  | fuel + 1, h, l =>
    if l.isEmpty then h
    else sha1Chunks fuel (sha1ChunkStep h (l.take 64)) (l.drop 64)

/-- Big-endian 8-byte rendering of the bit length. -/
def lenBytes (n : Nat) : List Nat :=
  [n / 2 ^ 56 % 256, n / 2 ^ 48 % 256, n / 2 ^ 40 % 256, n / 2 ^ 32 % 256,
   n / 2 ^ 24 % 256, n / 2 ^ 16 % 256, n / 2 ^ 8 % 256, n % 256]

/-- SHA-1 padding: `0x80`, zeros to 56 mod 64, then the 64-bit bit length. -/
def sha1Pad (msg : List Nat) : List Nat :=
  let L := msg.length
  let z := (64 - (L + 9) % 64) % 64
  msg ++ [128] ++ List.replicate z 0 ++ lenBytes (L * 8)

/-- The full 160-bit SHA-1 digest of a byte list, as one natural number
(big-endian concatenation of the five state words). -/
def sha1Nat (msg : List Nat) : Nat :=
  let padded := sha1Pad msg
  let st := sha1Chunks (padded.length + 1)
    (0x67452301, 0xEFCDAB89, 0x98BADCFE, 0x10325476, 0xC3D2E1F0) padded
  (((st.1 * M32 + st.2.1) * M32 + st.2.2.1) * M32 + st.2.2.2.1) * M32 + st.2.2.2.2

/-! ### Task fingerprints (`_task_id_for`, app.py:414) -/

/-- `_task_id_for(text)`: `hashlib.sha1(text.encode("utf-8")).hexdigest()[:12]`. -/
def _task_id_for (text : String) : String :=
  String.mk ((toHexChars 40 (sha1Nat (utf8Bytes text))).take 12)

/-- The content fingerprint of a task, as computed at both call sites
(`fallback_listening_task`, `generate_listening_task`):
`_task_id_for(title + "\n" + passage)`. -/
def task_fingerprint (title body : String) : String :=
  _task_id_for (title ++ "\n" ++ body)

/-! ### Data model -/

/-- One multiple-choice listening question (`question/options/answer/why`). -/
structure ListeningQuestion where
  question : String
  options : List String
  answer : String
  why : String
deriving DecidableEq, Repr

/-- A listening exercise task (the dict built by
`fallback_listening_task` / `generate_listening_task`). -/
structure ListeningTask where
  task_id : String
  level : String
  title : String
  instructions : String
  passage : String
  questions : List ListeningQuestion
  audio_url : Option String
  audio_mimetype : Option String
  audio_path : Option String
  source : String
deriving DecidableEq, Repr

/-- The transient evaluation result `{score, feedback}` produced by the
writing / speaking / listening evaluators. -/
structure EvalResult where
  score : ℚ
  feedback : List String
deriving DecidableEq, Repr

/-- Oracle for one external AI judge call: the structured payload the
call returned, or the exception it raised (`errName` is
`type(e).__name__`, `errRepr` is `repr(e)`). -/
inductive AIOutcome where
  | ok (score : ℚ) (feedback : List String)
  | err (errName errRepr : String)
deriving DecidableEq, Repr

/-- A persisted submission row, restricted to the fields the claims are
about (`Submission(type=…, content=…, ai_score=…, ai_feedback=…)`;
`ai_score` and `ai_feedback` are nullable columns). -/
structure SubmissionRow where
  type : String
  content : String
  ai_score : Option ℚ
  ai_feedback : Option String
deriving DecidableEq, Repr

/-! ### Writing evaluator (`generate_ai_feedback_writing`, app.py:124) -/

/-- `generate_ai_feedback_writing(text)`.  `configured` models
`get_openai_client() is not None`; `outcome` is the oracle for the
`client.responses.create` call (any raised exception, including JSON
parsing, lands in `err`). -/
def generate_ai_feedback_writing (configured : Bool) (text : String)
    (outcome : AIOutcome) : EvalResult :=
  if !configured then
    let words := pyWords text
    let score : ℚ := 50 + (if 80 ≤ words.length then 10 else 0)
    { score := min 100 score,
      feedback :=
        ["AI service is not configured (missing OPENAI_API_KEY).",
         "Fallback evaluation was used.",
         "Set OPENAI_API_KEY and try again for full AI feedback."] }
  else
    match outcome with
    | .ok s fb => { score := s, feedback := fb }
    | .err errName _ =>
      { score := 55,
        feedback :=
          ["AI evaluation failed temporarily.",
           "Please try again later.",
           "Debug: " ++ errName] }

/-! ### Speaking evaluator (`generate_ai_feedback_speaking`, app.py:226) -/

/-- `generate_ai_feedback_speaking(transcript)`.  The transcript is
only interpolated into the prompt sent to the external judge, so it
does not influence the result beyond the oracle. -/
def generate_ai_feedback_speaking (configured : Bool) (transcript : String)
    (outcome : AIOutcome) : EvalResult :=
  if !configured then
    { score := 0,
      feedback :=
        ["AI speaking feedback unavailable (missing OPENAI_API_KEY).",
         "Enable OpenAI billing/credits to get transcription + speaking feedback."] }
  else
    match outcome with
    | .ok s fb => { score := s, feedback := fb }
    | .err errName errRepr =>
      if containsSub errRepr "insufficient_quota" then
        { score := 0,
          feedback :=
            ["AI speaking evaluation is unavailable because your OpenAI account has no remaining quota.",
             "Fix: enable billing/credits, restart the app, then try again.",
             "Debug: insufficient_quota"] }
      else
        { score := 55,
          feedback :=
            ["AI evaluation failed temporarily.",
             "Please try again later.",
             "Debug: " ++ errName] }

/-! ### Listening fallback bank (`fallback_listening_task`, app.py:418) -/

/-- One entry of the built-in listening bank (title, passage, questions). -/
structure ListeningBankEntry where
  title : String
  passage : String
  questions : List ListeningQuestion
deriving DecidableEq, Repr

/-- The `"A2"` entry of the bank. -/
def bankA2 : ListeningBankEntry :=
  { title := "A morning at the café",
    passage := "Sofia goes to a small café near her home. She orders a coffee and a sandwich. The café is busy, so she waits for ten minutes. When her food arrives, she sits by the window and watches people walking in the street.",
    questions :=
      [{ question := "Where does Sofia go?",
         options := ["To a café near her home", "To a park", "To a supermarket", "To a library"],
         answer := "To a café near her home",
         why := "The passage says she goes to a small café near her home." },
       { question := "Why does she wait for ten minutes?",
         options := ["Because the café is busy", "Because she forgot her money", "Because the café is closed", "Because she meets a friend"],
         answer := "Because the café is busy",
         why := "It explicitly says the café is busy." },
       { question := "Where does she sit?",
         options := ["By the window", "Outside", "Near the kitchen", "At the bar"],
         answer := "By the window",
         why := "It says she sits by the window." }] }

/-- The `"B1"` entry of the bank. -/
def bankB1 : ListeningBankEntry :=
  { title := "A new hobby",
    passage := "Last month, Daniel decided to learn photography. At first, he used his phone, but soon he bought a simple camera. Every Saturday morning, he walks around his city and takes pictures of buildings and markets. He uploads his best photos online and asks for feedback. Little by little, he is improving.",
    questions :=
      [{ question := "Why did Daniel buy a camera?",
         options := ["He wanted better photos than his phone", "His phone was lost", "He needed it for work", "A friend gave him money"],
         answer := "He wanted better photos than his phone",
         why := "He started with a phone, then bought a camera to improve." },
       { question := "When does he practice?",
         options := ["Every Saturday morning", "Every evening", "On Sundays", "Only on holidays"],
         answer := "Every Saturday morning",
         why := "The passage says every Saturday morning." },
       { question := "How does he improve?",
         options := ["He asks for feedback online", "He stops taking photos", "He only reads books", "He changes cities"],
         answer := "He asks for feedback online",
         why := "He uploads and asks for feedback." }] }

/-- The `"B2"` entry of the bank. -/
def bankB2 : ListeningBankEntry :=
  { title := "Remote work changes",
    passage := "Many companies introduced remote work to reduce costs and offer employees more flexibility. However, some managers noticed that new employees sometimes felt isolated and learned more slowly. To solve this, several teams created short daily check-ins and paired newcomers with mentors. These changes helped people feel connected without removing the benefits of working from home.",
    questions :=
      [{ question := "What problem did some new employees have?",
         options := ["They felt isolated", "They were paid less", "They had no internet", "They moved abroad"],
         answer := "They felt isolated",
         why := "It says new employees sometimes felt isolated." },
       { question := "What solution is mentioned?",
         options := ["Daily check-ins and mentors", "Longer meetings every day", "No communication", "Returning to full-time office work"],
         answer := "Daily check-ins and mentors",
         why := "Those are the two measures described." },
       { question := "What was the goal of the changes?",
         options := ["To feel connected while keeping flexibility", "To remove remote work", "To reduce salaries", "To hire fewer people"],
         answer := "To feel connected while keeping flexibility",
         why := "The final sentence states that balance." }] }

/-- The `"C1"` entry of the bank. -/
def bankC1 : ListeningBankEntry :=
  { title := "Attention and multitasking",
    passage := "Multitasking is often praised as a modern skill, yet research suggests that frequent task switching can reduce accuracy. When people jump between messages, documents, and meetings, their brains pay a ‘switching cost’—a short period of reorientation. Over time, this can create the illusion of productivity while quietly lowering the quality of decisions.",
    questions :=
      [{ question := "What does task switching often reduce?",
         options := ["Accuracy", "Sleep", "Team size", "Creativity in all cases"],
         answer := "Accuracy",
         why := "The passage says it can reduce accuracy." },
       { question := "What is the \x27switching cost\x27?",
         options := ["A reorientation period", "A financial penalty", "A tax for companies", "A training program"],
         answer := "A reorientation period",
         why := "It is defined in the passage." },
       { question := "What illusion may multitasking create?",
         options := ["An illusion of productivity", "An illusion of boredom", "An illusion of perfect memory", "An illusion of free time"],
         answer := "An illusion of productivity",
         why := "It says it creates the illusion of productivity." }] }

/-- The `"C2"` entry of the bank. -/
def bankC2 : ListeningBankEntry :=
  { title := "Interpretation and nuance",
    passage := "In complex debates, participants may agree on facts yet disagree profoundly on meaning. This happens because interpretation is shaped by assumptions, values, and the context people consider relevant. As a result, language becomes less a tool for transferring information and more a medium for negotiating nuance.",
    questions :=
      [{ question := "Why can people disagree even when they share facts?",
         options := ["Because interpretation differs", "Because facts are always false", "Because context is irrelevant", "Because language is fixed"],
         answer := "Because interpretation differs",
         why := "It says disagreement comes from interpretation shaped by assumptions/values/context." },
       { question := "What shapes interpretation, according to the passage?",
         options := ["Assumptions, values, and context", "Only grammar rules", "Only emotions", "Only statistics"],
         answer := "Assumptions, values, and context",
         why := "Those three are explicitly listed." },
       { question := "How is language described in complex debates?",
         options := ["A medium for negotiating nuance", "A perfect calculator", "Only a dictionary", "A barrier to meaning"],
         answer := "A medium for negotiating nuance",
         why := "That’s the final point." }] }

/-- `bank.get(level, bank["B1"])`: the bank lookup with the `B1`
entry as the default. -/
def listening_bank_get (level : String) : ListeningBankEntry :=
  if level = "A2" then bankA2
  else if level = "B1" then bankB1
  else if level = "B2" then bankB2
  else if level = "C1" then bankC1
  else if level = "C2" then bankC2
  else bankB1

/-- `fallback_listening_task(level)` (app.py:418-576). -/
def fallback_listening_task (level : String) : ListeningTask :=
  let base := listening_bank_get level
  let txt := base.title ++ "\n" ++ base.passage
  { task_id := _task_id_for txt,
    level := level,
    title := base.title,
    instructions := "Listen to the audio. Then answer the questions.",
    passage := base.passage,
    questions := base.questions,
    audio_url := none,
    audio_mimetype := none,
    audio_path := none,
    source := "fallback" }

/-! ### AI listening task generation (`generate_listening_task`, app.py:579) -/

/-- The structured payload a successful AI generation call returns
(title, passage, questions, schema-validated upstream). -/
structure ListeningGenOk where
  title : String
  passage : String
  questions : List ListeningQuestion
deriving DecidableEq, Repr

/-- Oracle for the AI listening-task generation call. -/
inductive GenOutcome where
  | ok (d : ListeningGenOk)
  | err (errName : String)
deriving DecidableEq, Repr

/-- `generate_listening_task(level)`.  `configured` models the client
check; `outcome` the generation call; `audio` the best-effort TTS step
(`some (path, url)` when synthesis and the file write succeed, `none`
when that inner `try` fails — the task itself is kept either way). -/
def generate_listening_task (configured : Bool) (level : String)
    (outcome : GenOutcome) (audio : Option (String × String)) : ListeningTask :=
  if !configured then fallback_listening_task level
  else
    match outcome with
    | .err _ => fallback_listening_task level
    | .ok d =>
      let title := pyStrip d.title
      let passage := pyStrip d.passage
      let base : ListeningTask :=
        { task_id := _task_id_for (title ++ "\n" ++ passage),
          level := level,
          title := title,
          instructions := "Listen to the audio. Then answer the questions.",
          passage := passage,
          questions := d.questions,
          audio_url := none,
          audio_mimetype := none,
          audio_path := none,
          source := "openai" }
      match audio with
      | none => base
      | some pu =>
        { base with
          audio_path := some pu.1,
          audio_url := some pu.2,
          audio_mimetype := some "audio/mpeg" }

/-! ### Listening grading (`evaluate_listening_answers`, app.py:697) -/

/-- The correction line the grader emits for question `i` (0-based):
`f"Q{i+1}: Correct answer is '{expected}'. {q.get('why','').strip()}"`. -/
def listeningCorrectionLine (i : Nat) (q : ListeningQuestion) : String :=
  "Q" ++ toString (i + 1) ++ ": Correct answer is \x27" ++ q.answer ++ "\x27. " ++ pyStrip q.why

/-- The grading loop of `evaluate_listening_answers` (one pass over the
questions, counting exact matches and collecting correction lines;
`got = user_answers[i] if i < len(user_answers) else None`). -/
def listenLoop (user_answers : List (Option String)) : Nat → List ListeningQuestion → Nat × List String
  | _, [] => (0, [])
  | i, q :: rest =>
    let r := listenLoop user_answers (i + 1) rest
    if user_answers.getD i none = some q.answer then (r.1 + 1, r.2)
    else (r.1, listeningCorrectionLine i q :: r.2)

/-- The number of exact matches between submitted options and designated
correct answers, starting at question index `i`. -/
def listeningMatches (user_answers : List (Option String)) : Nat → List ListeningQuestion → Nat
  | _, [] => 0
  | i, q :: rest =>
    (if user_answers.getD i none = some q.answer then 1 else 0) +
      listeningMatches user_answers (i + 1) rest

/-- The correction lines for the incorrect or unanswered questions,
starting at question index `i`, in question order. -/
def listeningCorrections (user_answers : List (Option String)) : Nat → List ListeningQuestion → List String
  | _, [] => []
  | i, q :: rest =>
    if user_answers.getD i none = some q.answer then
      listeningCorrections user_answers (i + 1) rest
    else
      listeningCorrectionLine i q :: listeningCorrections user_answers (i + 1) rest

/-- `evaluate_listening_answers(task, user_answers)` (app.py:697-722):
deterministic grading, score `correct/total*100` (0 when there are no
questions), correction lines for wrong or missing answers, an overall
remark prepended and a low-score tip appended. -/
def evaluate_listening_answers (task : ListeningTask)
    (user_answers : List (Option String)) : ℚ × List String :=
  let questions := task.questions
  let total := questions.length
  let r := listenLoop user_answers 0 questions
  let correct := r.1
  let feedback_lines := r.2
  let score : ℚ := if total = 0 then 0 else (correct : ℚ) / (total : ℚ) * 100
  if score = 100 then
    (score, "Excellent — all answers correct. Try a higher level next time." :: feedback_lines)
  else
    let fl := "Review the audio once more and focus on keywords (names, numbers, cause-effect)." :: feedback_lines
    let fl := if score < 50 then fl ++ ["Tip: Use a lower level for 2–3 days, then step up again."] else fl
    (score, fl)

/-! ### Dashboard aggregation (`dashboard`, app.py:882-982) -/

/-- `score_to_level(score)` (app.py:909-918), the level thresholds. -/
def score_to_level (score : ℚ) : String :=
  if score < 50 then "A2"
  else if score < 65 then "B1"
  else if score < 78 then "B2"
  else if score < 90 then "C1"
  else "C2"

/-- The overall-score computation of `dashboard` (app.py:889-907).
`history` is the user's submission history ordered most recent first;
each element is the (nullable) `ai_score` of one submission.  The query
keeps the rows whose score is not NULL, limits to 12, then the loop
keeps the strictly positive values and averages them with Python's
`round`; an empty remainder yields `None`. -/
def dashboardOverallScore (history : List (Option ℚ)) : Option Int :=
  let recent := (history.filterMap id).take 12
  let scores := recent.filter (fun v => decide (0 < v))
  if scores.isEmpty then none
  else some (pyRound (scores.sum / (scores.length : ℚ)))

/-- The level shown by `dashboard` (app.py:920):
`score_to_level(overall_score) if overall_score is not None else "—"`. -/
def dashboardLevel (history : List (Option ℚ)) : String :=
  match dashboardOverallScore history with
  | none => "—"
  | some v => score_to_level (v : ℚ)

/-- The spec's description of the overall score, written from §4.4 /
C1: among the most recent 12 scored (non-missing) submissions, drop
those with a non-positive score, average the rest rounded to nearest
integer, and report "no data" when nothing qualifies. -/
def overallScoreSpec (history : List (Option ℚ)) : Option Int :=
  let scored := history.filterMap id
  let recent12 := scored.take 12
  let qualifying := recent12.filter (fun v => decide (0 < v))
  if qualifying.isEmpty then none
  else some (pyRound (qualifying.sum / (qualifying.length : ℚ)))

/-- The spec's description of the displayed level: the no-data label
when the overall score is undefined, else the threshold mapping. -/
def levelSpec (history : List (Option ℚ)) : String :=
  match overallScoreSpec history with
  | none => "—"
  | some v => score_to_level (v : ℚ)

/-! ### Practice streak (`dashboard`, app.py:950-965) -/

/-- Calendar days are modelled as integers (`timedelta(days=1)` is `1`).
`practiced_days = {s.created_at.date() for s in all_subs}` is a finite
set of days. -/
def streakAnchor (days : Finset Int) (today : Int) : Int :=
  if today ∈ days then today else today - 1

/-- The backward walk `while d in practiced_days: streak += 1; d -= 1`,
with explicit fuel (the Python loop terminates because the day set is
finite; fuel `days.card + 1` is proved sufficient below). -/
def streakLoop (days : Finset Int) : Int → Nat → Nat
  | _, 0 => 0
  | d, fuel + 1 => if d ∈ days then streakLoop days (d - 1) fuel + 1 else 0

/-- The practice streak computed by `dashboard` (app.py:960-965). -/
def streak (days : Finset Int) (today : Int) : Nat :=
  streakLoop days (streakAnchor days today) (days.card + 1)

/-! ### The three submission-persisting routes (app.py:1078-1230) -/

/-- The `writing` route, POST branch (app.py:1081-1099), restricted to
the persisted row: validates the essay, evaluates it, and inserts a
submission with both AI fields set.  `none` models "no record
persisted" (validation failure → redirect). -/
def writing_route (essay : String) (configured : Bool)
    (outcome : AIOutcome) : Option SubmissionRow :=
  let essay := pyStrip essay
  if essay = "" then none
  else
    let ai := generate_ai_feedback_writing configured essay outcome
    some { type := "WRITING",
           content := essay,
           ai_score := some ai.score,
           ai_feedback := some (String.intercalate "\n" ai.feedback) }

/-- The `speaking` route, POST branch (app.py:1118-1165), restricted to
the persisted row.  `audioOk` models the uploaded-file check;
`transcript` the `transcribe_audio_file` result (`None` on any
transcription failure; the empty string is falsy in Python and takes
the same branch); `content` holds the JSON payload, abstracted to the
transcript-bearing part. -/
def speaking_route (audioOk : Bool) (transcript : Option String)
    (configured : Bool) (outcome : AIOutcome) : Option SubmissionRow :=
  if !audioOk then none
  else
    let failed : ℚ × String :=
      (0, "Speaking feedback unavailable because transcription failed.\nIf you see \x27insufficient_quota\x27 in the terminal, enable OpenAI billing/credits.")
    let r : ℚ × String :=
      match transcript with
      | some t =>
        if t = "" then failed
        else
          let ai := generate_ai_feedback_speaking configured t outcome
          (ai.score, String.intercalate "\n" ai.feedback)
      | none => failed
    some { type := "SPEAKING",
           content := (transcript.getD ""),
           ai_score := some r.1,
           ai_feedback := some r.2 }

/-- The `listening` route, POST branch (app.py:1191-1230), restricted to
the persisted row.  `task` is the session's pending task (`none` → no
record, the user is redirected); `form i` is `request.form.get(f"q{i}")`;
`content` holds the JSON payload, abstracted to the task id. -/
def listening_route (task : Option ListeningTask)
    (form : Nat → Option String) : Option SubmissionRow :=
  match task with
  | none => none
  | some task =>
    let user_answers := (List.range task.questions.length).map form
    let r := evaluate_listening_answers task user_answers
    some { type := "LISTENING",
           content := task.task_id,
           ai_score := some r.1,
           ai_feedback := some (String.intercalate "\n" r.2) }

/-! ### Spec-side characterizations and concrete test data -/

/-- The listening score as the spec states it: `matches/n*100` for
`n ≥ 1` questions, `0` for `n = 0`. -/
def listeningScore (task : ListeningTask) (ans : List (Option String)) : ℚ :=
  if task.questions.length = 0 then 0
  else (listeningMatches ans 0 task.questions : ℚ) / (task.questions.length : ℚ) * 100

/-- The listening feedback shape: a congratulatory line before the
correction lines exactly when the score is 100, otherwise the
re-listening remark before them, with the stay-lower tip appended
exactly when the score is below 50. -/
def listeningFeedbackSpec (task : ListeningTask) (ans : List (Option String)) : List String :=
  if listeningScore task ans = 100 then
    "Excellent — all answers correct. Try a higher level next time." ::
      listeningCorrections ans 0 task.questions
  else
    ("Review the audio once more and focus on keywords (names, numbers, cause-effect)." ::
        listeningCorrections ans 0 task.questions) ++
      (if listeningScore task ans < 50 then
        ["Tip: Use a lower level for 2–3 days, then step up again."]
      else [])

/-- Schema conformance of an AI-judge response: when the oracle is a
successful call, its payload satisfies the JSON schema the code
requests (`score` in `[0,100]`, between `lo` and `hi` feedback items). -/
def schemaOK (lo hi : Nat) (o : AIOutcome) : Prop :=
  ∀ s fb, o = AIOutcome.ok s fb → 0 ≤ s ∧ s ≤ 100 ∧ lo ≤ fb.length ∧ fb.length ≤ hi

/-- The spec's three-question worked example: correct answers
`[X, Y, Z]`, one `why` string per question. -/
def exampleTaskXYZ : ListeningTask :=
  { task_id := "t", level := "B1", title := "T",
    instructions := "Listen to the audio. Then answer the questions.",
    passage := "P",
    questions :=
      [{ question := "q1", options := ["X", "Y", "Z", "W"], answer := "X", why := "w1" },
       { question := "q2", options := ["X", "Y", "Z", "W"], answer := "Y", why := "w2" },
       { question := "q3", options := ["X", "Y", "Z", "W"], answer := "Z", why := "w3" }],
    audio_url := none, audio_mimetype := none, audio_path := none,
    source := "fallback" }

/-- The spec's submitted answers `[X, _, W]` (second missing, `W ≠ Z`). -/
def exampleAnswersXW : List (Option String) := [some "X", none, some "W"]

/-- A one-question task, answered correctly: the smallest evaluation
whose feedback has fewer than 5 lines. -/
def exampleTaskOne : ListeningTask :=
  { task_id := "t1", level := "B1", title := "T1",
    instructions := "Listen to the audio. Then answer the questions.",
    passage := "P1",
    questions :=
      [{ question := "q", options := ["A", "B", "C", "D"], answer := "A", why := "w" }],
    audio_url := none, audio_mimetype := none, audio_path := none,
    source := "fallback" }

/-- The string of `n` letters `a` (used to exhibit infinitely many
distinct titles). -/
def aString (n : Nat) : String := String.mk (List.replicate n 'a')

/-- A bound predicate on hash states: all five words below `2^32`. -/
def stBound (st : Sha1State) : Prop :=
  st.1 < M32 ∧ st.2.1 < M32 ∧ st.2.2.1 < M32 ∧ st.2.2.2.1 < M32 ∧ st.2.2.2.2 < M32

/-! ### Supporting lemmas -/

theorem toHexChars_length (w : Nat) : ∀ n, (toHexChars w n).length = w := by
  induction w with
  | zero => intro n; rfl
  | succ w ih => intro n; simp [toHexChars, ih]

theorem listenLoop_eq (ans : List (Option String)) :
    ∀ (qs : List ListeningQuestion) (i : Nat),
      listenLoop ans i qs = (listeningMatches ans i qs, listeningCorrections ans i qs) := by
  intro qs
  induction qs with
  | nil => intro i; rfl
  | cons q rest ih =>
    intro i
    simp only [listenLoop, listeningMatches, listeningCorrections, ih]
    split_ifs <;> simp [Nat.add_comm]

theorem listeningMatches_le (ans : List (Option String)) :
    ∀ (qs : List ListeningQuestion) (i : Nat),
      listeningMatches ans i qs ≤ qs.length := by
  intro qs
  induction qs with
  | nil => intro i; exact Nat.le_refl 0
  | cons q rest ih =>
    intro i
    simp only [listeningMatches, List.length_cons]
    have := ih (i + 1)
    split_ifs <;> omega

theorem evaluate_listening_answers_eq (task : ListeningTask) (ans : List (Option String)) :
    evaluate_listening_answers task ans = (listeningScore task ans, listeningFeedbackSpec task ans) := by
  simp only [evaluate_listening_answers, listeningScore, listeningFeedbackSpec, listenLoop_eq]
  by_cases h100 : (if task.questions.length = 0 then (0 : ℚ)
      else (listeningMatches ans 0 task.questions : ℚ) / (task.questions.length : ℚ) * 100) = 100
  · rw [if_pos h100, if_pos h100]
  · rw [if_neg h100, if_neg h100]
    by_cases h50 : (if task.questions.length = 0 then (0 : ℚ)
        else (listeningMatches ans 0 task.questions : ℚ) / (task.questions.length : ℚ) * 100) < 50
    · rw [if_pos h50, if_pos h50]
    · rw [if_neg h50, if_neg h50]
      simp

theorem streakLoop_hits (days : Finset Int) :
    ∀ (fuel : Nat) (d : Int) (k : Nat), k < streakLoop days d fuel → (d - k) ∈ days := by
  intro fuel
  induction fuel with
  | zero => intro d k h; simp [streakLoop] at h
  | succ n ih =>
    intro d k h
    simp only [streakLoop] at h
    by_cases hd : d ∈ days
    · rw [if_pos hd] at h
      cases k with
      | zero => simpa using hd
      | succ k =>
        have hmem := ih (d - 1) k (by omega)
        have heq : d - 1 - (k : Int) = d - ((k : Nat) + 1 : Nat) := by push_cast; ring
        rwa [heq] at hmem
    · rw [if_neg hd] at h
      omega

theorem streakLoop_le (days : Finset Int) :
    ∀ (fuel : Nat) (d : Int), streakLoop days d fuel ≤ fuel := by
  intro fuel
  induction fuel with
  | zero => intro d; exact Nat.le_refl 0
  | succ n ih =>
    intro d
    simp only [streakLoop]
    split_ifs
    · have := ih (d - 1); omega
    · omega

theorem streakLoop_gap (days : Finset Int) :
    ∀ (fuel : Nat) (d : Int), streakLoop days d fuel < fuel →
      (d - (streakLoop days d fuel : Int)) ∉ days := by
  intro fuel
  induction fuel with
  | zero => intro d h; omega
  | succ n ih =>
    intro d h
    simp only [streakLoop] at h ⊢
    by_cases hd : d ∈ days
    · rw [if_pos hd] at h ⊢
      have h' : streakLoop days (d - 1) n < n := by omega
      have := ih (d - 1) h'
      have heq : d - 1 - (streakLoop days (d - 1) n : Int) =
          d - ((streakLoop days (d - 1) n + 1 : Nat) : Int) := by push_cast; ring
      rwa [heq] at this
    · rw [if_neg hd]
      simpa using hd

theorem streakLoop_card_bound (days : Finset Int) (fuel : Nat) (d : Int) :
    streakLoop days d fuel ≤ days.card := by
  have hsub : (Finset.range (streakLoop days d fuel)).image (fun k : Nat => d - (k : Int)) ⊆ days := by
    intro x hx
    simp only [Finset.mem_image, Finset.mem_range] at hx
    obtain ⟨k, hk, rfl⟩ := hx
    exact streakLoop_hits days fuel d k hk
  have hinj : Function.Injective (fun k : Nat => d - (k : Int)) := by
    intro a b hab
    simp only at hab
    omega
  have hcard := Finset.card_le_card hsub
  rwa [Finset.card_image_of_injective _ hinj, Finset.card_range] at hcard

theorem sha1ChunkStep_bound (h : Sha1State) (chunk : List Nat) :
    stBound (sha1ChunkStep h chunk) := by
  refine ⟨?_, ?_, ?_, ?_, ?_⟩ <;>
    exact Nat.mod_lt _ (by norm_num [M32])

theorem sha1Chunks_bound :
    ∀ (fuel : Nat) (st : Sha1State) (l : List Nat),
      stBound st → stBound (sha1Chunks fuel st l) := by
  intro fuel
  induction fuel with
  | zero => intro st l hst; exact hst
  | succ n ih =>
    intro st l hst
    simp only [sha1Chunks]
    split_ifs
    · exact hst
    · exact ih _ _ (sha1ChunkStep_bound st _)

theorem sha1Nat_lt (msg : List Nat) : sha1Nat msg < 2 ^ 160 := by
  unfold sha1Nat
  have hb := sha1Chunks_bound ((sha1Pad msg).length + 1)
    (0x67452301, 0xEFCDAB89, 0x98BADCFE, 0x10325476, 0xC3D2E1F0) (sha1Pad msg)
    (by refine ⟨?_, ?_, ?_, ?_, ?_⟩ <;> norm_num [M32])
  obtain ⟨b0, b1, b2, b3, b4⟩ := hb
  have h160 : (2 : Nat) ^ 160 = 1461501637330902918203684832716283019655932542976 := by norm_num
  simp only [M32] at *
  rw [h160]
  omega

theorem dashboardOverallScore_eq_none_iff (history : List (Option ℚ)) :
    dashboardOverallScore history = none ↔
      ((history.filterMap id).take 12).filter (fun v => decide (0 < v)) = [] := by
  simp only [dashboardOverallScore]
  rcases h : ((history.filterMap id).take 12).filter (fun v => decide (0 < v)) with _ | ⟨x, xs⟩
  · simp
  · simp

/-! ### The claims -/

/-- Claim C1: the overall score is the rounded average of the strictly
positive scores among the 12 most recent submissions with a non-missing
score (the code's pipeline coincides with the spec's description); when
nothing qualifies the overall score is `None` — exactly when that
filtered list is empty — and the displayed level is the no-data label
`"—"`, not A2; twelve zero scores yield no data, and scores 80 and 90
average to 85. -/
theorem c1_overall_score_aggregation (history : List (Option ℚ)) :
    dashboardOverallScore history = overallScoreSpec history ∧
    dashboardLevel history = levelSpec history ∧
    (dashboardOverallScore history = none ↔
      ((history.filterMap id).take 12).filter (fun v => decide (0 < v)) = []) ∧
    dashboardOverallScore (List.replicate 12 (some (0 : ℚ))) = none ∧
    dashboardLevel (List.replicate 12 (some (0 : ℚ))) = "—" ∧
    dashboardLevel (List.replicate 12 (some (0 : ℚ))) ≠ "A2" ∧
    dashboardOverallScore [some 80, some 90] = some 85 := by
  have hz : dashboardOverallScore (List.replicate 12 (some (0 : ℚ))) = none := by
    have hf : (((List.replicate 12 (some (0 : ℚ))).filterMap id).take 12).filter
        (fun v => decide (0 < v)) = [] := by decide
    simp only [dashboardOverallScore, hf]
    rfl
  refine ⟨rfl, rfl, dashboardOverallScore_eq_none_iff history, hz, ?_, ?_, ?_⟩
  · unfold dashboardLevel
    rw [hz]
  · unfold dashboardLevel
    rw [hz]
    decide
  · have hf : (([some (80 : ℚ), some 90].filterMap id).take 12).filter
        (fun v => decide (0 < v)) = [80, 90] := by decide
    simp only [dashboardOverallScore, hf]
    norm_num [pyRound]

/-- Claim C2: the streak is the number of consecutive calendar days,
counted backward from the anchor (today if practiced today, else
yesterday), on each of which a submission exists, stopping at the first
gap: every counted day is a practiced day and the day after the counted
range is not; the day set {today, today-1, today-2, today-4} gives
streak 3, the empty history 0, and {yesterday} gives 1. -/
theorem c2_streak_consecutive_days :
    (∀ (days : Finset Int) (today : Int),
      (∀ k : Nat, k < streak days today → (streakAnchor days today - (k : Int)) ∈ days) ∧
      (streakAnchor days today - (streak days today : Int)) ∉ days) ∧
    streak ({0, -1, -2, -4} : Finset Int) 0 = 3 ∧
    streak (∅ : Finset Int) 0 = 0 ∧
    streak ({-1} : Finset Int) 0 = 1 := by
  refine ⟨?_, by decide, by decide, by decide⟩
  intro days today
  constructor
  · intro k hk
    exact streakLoop_hits days (days.card + 1) (streakAnchor days today) k hk
  · have hb := streakLoop_card_bound days (days.card + 1) (streakAnchor days today)
    exact streakLoop_gap days (days.card + 1) (streakAnchor days today) (by omega)

/-- Witness for C2 at a concrete history: with practiced days
{0, -1, -2, -4} and today 0, the day one before the anchor is practiced
(instantiating the characterization at k = 1 < streak = 3). -/
theorem c2_streak_consecutive_days_witness :
    (streakAnchor ({0, -1, -2, -4} : Finset Int) 0 - (1 : Int)) ∈
      ({0, -1, -2, -4} : Finset Int) :=
  (c2_streak_consecutive_days.1 ({0, -1, -2, -4} : Finset Int) 0).1 1 (by decide)

/-- Claim C3: `score_to_level` is total and pure, always returns one of
A2/B1/B2/C1/C2, with half-open thresholds `<50 → A2`, `[50,65) → B1`,
`[65,78) → B2`, `[78,90) → C1`, `≥90 → C2`; the eight boundary inputs
land on the documented sides. -/
theorem c3_score_to_level_thresholds :
    (∀ q : ℚ,
      score_to_level q ∈ (["A2", "B1", "B2", "C1", "C2"] : List String) ∧
      (score_to_level q = "A2" ↔ q < 50) ∧
      (score_to_level q = "B1" ↔ 50 ≤ q ∧ q < 65) ∧
      (score_to_level q = "B2" ↔ 65 ≤ q ∧ q < 78) ∧
      (score_to_level q = "C1" ↔ 78 ≤ q ∧ q < 90) ∧
      (score_to_level q = "C2" ↔ 90 ≤ q)) ∧
    score_to_level (4999 / 100) = "A2" ∧ score_to_level 50 = "B1" ∧
    score_to_level (6499 / 100) = "B1" ∧ score_to_level 65 = "B2" ∧
    score_to_level (7799 / 100) = "B2" ∧ score_to_level 78 = "C1" ∧
    score_to_level (8999 / 100) = "C1" ∧ score_to_level 90 = "C2" := by
  refine ⟨?_, by norm_num [score_to_level], by norm_num [score_to_level],
    by norm_num [score_to_level], by norm_num [score_to_level],
    by norm_num [score_to_level], by norm_num [score_to_level],
    by norm_num [score_to_level], by norm_num [score_to_level]⟩
  intro q
  unfold score_to_level
  split_ifs with h1 h2 h3 h4
  · exact ⟨by decide,
      iff_of_true rfl h1,
      iff_of_false (by decide) (fun h => absurd h1 (not_lt.mpr h.1)),
      iff_of_false (by decide) (fun h => absurd h1 (not_lt.mpr (le_trans (by norm_num) h.1))),
      iff_of_false (by decide) (fun h => absurd h1 (not_lt.mpr (le_trans (by norm_num) h.1))),
      iff_of_false (by decide) (fun h => absurd h1 (not_lt.mpr (le_trans (by norm_num) h)))⟩
  · exact ⟨by decide,
      iff_of_false (by decide) h1,
      iff_of_true rfl ⟨not_lt.mp h1, h2⟩,
      iff_of_false (by decide) (fun h => absurd h2 (not_lt.mpr h.1)),
      iff_of_false (by decide) (fun h => absurd h2 (not_lt.mpr (le_trans (by norm_num) h.1))),
      iff_of_false (by decide) (fun h => absurd h2 (not_lt.mpr (le_trans (by norm_num) h)))⟩
  · exact ⟨by decide,
      iff_of_false (by decide) h1,
      iff_of_false (by decide) (fun h => h2 h.2),
      iff_of_true rfl ⟨not_lt.mp h2, h3⟩,
      iff_of_false (by decide) (fun h => absurd h3 (not_lt.mpr h.1)),
      iff_of_false (by decide) (fun h => absurd h3 (not_lt.mpr (le_trans (by norm_num) h)))⟩
  · exact ⟨by decide,
      iff_of_false (by decide) h1,
      iff_of_false (by decide) (fun h => h2 h.2),
      iff_of_false (by decide) (fun h => h3 h.2),
      iff_of_true rfl ⟨not_lt.mp h3, h4⟩,
      iff_of_false (by decide) (fun h => absurd h4 (not_lt.mpr h))⟩
  · exact ⟨by decide,
      iff_of_false (by decide) h1,
      iff_of_false (by decide) (fun h => h2 h.2),
      iff_of_false (by decide) (fun h => h3 h.2),
      iff_of_false (by decide) (fun h => h4 h.2),
      iff_of_true rfl (not_lt.mp h4)⟩

/-- Claim C4: for every listening task and answer list the returned
score is exactly `matches / n * 100` when there are `n ≥ 1` questions,
and 0 (not an error — the function is total) when `n = 0`. -/
theorem c4_listening_score_formula (task : ListeningTask) (ans : List (Option String)) :
    (evaluate_listening_answers task ans).1 =
      if task.questions.length = 0 then 0
      else (listeningMatches ans 0 task.questions : ℚ) / (task.questions.length : ℚ) * 100 := by
  rw [evaluate_listening_answers_eq]
  rfl

theorem exampleXYZ_score : listeningScore exampleTaskXYZ exampleAnswersXW = 100 / 3 := by
  have hm : listeningMatches exampleAnswersXW 0 exampleTaskXYZ.questions = 1 := by decide
  have hl : exampleTaskXYZ.questions.length = 3 := by decide
  simp only [listeningScore, hm, hl]
  norm_num

theorem exampleXYZ_feedback :
    (evaluate_listening_answers exampleTaskXYZ exampleAnswersXW).2 =
      ["Review the audio once more and focus on keywords (names, numbers, cause-effect).",
       "Q2: Correct answer is \x27Y\x27. w2",
       "Q3: Correct answer is \x27Z\x27. w3",
       "Tip: Use a lower level for 2–3 days, then step up again."] := by
  rw [evaluate_listening_answers_eq]
  simp only [listeningFeedbackSpec, exampleXYZ_score]
  rw [if_neg (by norm_num), if_pos (by norm_num)]
  decide

set_option maxRecDepth 4000 in
/-- Claim C5 counterexample: at the spec's own worked example
(3 questions, correct answers [X,Y,Z], submitted [X,missing,W]) the
feedback contains no line of the claimed form
`"Question <n>: Correct answer is '<answer>'. <why>"` — in fact no
feedback line even begins with the 8 characters `Question`; the code
emits `"Q<n>: ..."` instead. -/
theorem c5_feedback_format_counterexample :
    "Question 2: Correct answer is \x27Y\x27. w2" ∉
      (evaluate_listening_answers exampleTaskXYZ exampleAnswersXW).2 ∧
    ((evaluate_listening_answers exampleTaskXYZ exampleAnswersXW).2.all
      (fun l => !(l.data.take 8 == "Question".data))) = true := by
  rw [exampleXYZ_feedback]
  exact ⟨by decide, by decide⟩

/-- Claim C5 (amended): the feedback contains, for each incorrect or
unanswered question, a line `"Q<n>: Correct answer is '<answer>'.
<why>"` (`Q<n>`, not `Question <n>`); it is prepended with the
congratulatory line exactly when the score is 100, otherwise with the
re-listening remark, and the stay-lower tip is appended exactly when
the score is below 50; on the worked example the score is 100/3 and the
feedback is the remark, the two correction lines for questions 2 and 3,
and the tip. -/
theorem c5_feedback_structure_amended :
    (∀ (task : ListeningTask) (ans : List (Option String)),
      (evaluate_listening_answers task ans).2 =
        if listeningScore task ans = 100 then
          "Excellent — all answers correct. Try a higher level next time." ::
            listeningCorrections ans 0 task.questions
        else
          ("Review the audio once more and focus on keywords (names, numbers, cause-effect)." ::
              listeningCorrections ans 0 task.questions) ++
            (if listeningScore task ans < 50 then
              ["Tip: Use a lower level for 2–3 days, then step up again."]
            else [])) ∧
    (evaluate_listening_answers exampleTaskXYZ exampleAnswersXW).1 = 100 / 3 ∧
    (evaluate_listening_answers exampleTaskXYZ exampleAnswersXW).2 =
      ["Review the audio once more and focus on keywords (names, numbers, cause-effect).",
       "Q2: Correct answer is \x27Y\x27. w2",
       "Q3: Correct answer is \x27Z\x27. w3",
       "Tip: Use a lower level for 2–3 days, then step up again."] := by
  refine ⟨?_, ?_, exampleXYZ_feedback⟩
  · intro task ans
    rw [evaluate_listening_answers_eq]
    rfl
  · rw [evaluate_listening_answers_eq]
    exact exampleXYZ_score

/-- Claim C6: the writing evaluator is a total function (it never
raises past its own layer); when configured and the AI call fails for
any reason it returns exactly the fixed degraded result — score 55 and
three generic lines, one carrying the error category name — and when
unconfigured it returns the deterministic heuristic result
(min(100, 50 + 10·[word count ≥ 80]) with the three fallback lines). -/
theorem c6_writing_error_handling :
    (∀ (text errName errRepr : String),
      generate_ai_feedback_writing true text (AIOutcome.err errName errRepr) =
        { score := 55,
          feedback := ["AI evaluation failed temporarily.",
                       "Please try again later.",
                       "Debug: " ++ errName] }) ∧
    (∀ (text errName errRepr : String),
      ("Debug: " ++ errName) ∈
        (generate_ai_feedback_writing true text (AIOutcome.err errName errRepr)).feedback) ∧
    (∀ (text : String) (outcome : AIOutcome),
      generate_ai_feedback_writing false text outcome =
        { score := min 100 (50 + (if 80 ≤ (pyWords text).length then 10 else 0)),
          feedback := ["AI service is not configured (missing OPENAI_API_KEY).",
                       "Fallback evaluation was used.",
                       "Set OPENAI_API_KEY and try again for full AI feedback."] }) :=
  ⟨fun _ _ _ => rfl,
   fun _ _ _ => List.Mem.tail _ (List.Mem.tail _ (List.Mem.head _)),
   fun _ _ => rfl⟩

/-- Claim C7: the listening fallback task is a pure function of the
level — for every level it has exactly 3 questions, each with exactly 4
options, its fingerprint is the content fingerprint of its title and
passage, and it is marked as fallback; `generate_listening_task`
returns exactly this task whenever the client is unconfigured or the
generation call raises, so a usable task is always returned. -/
theorem c7_fallback_listening_task_shape :
    (∀ level : String,
      (fallback_listening_task level).questions.length = 3 ∧
      ((fallback_listening_task level).questions.all
        (fun q => q.options.length == 4)) = true ∧
      (fallback_listening_task level).task_id =
        task_fingerprint (fallback_listening_task level).title
          (fallback_listening_task level).passage ∧
      (fallback_listening_task level).source = "fallback") ∧
    (∀ (level : String) (o : GenOutcome) (a : Option (String × String)),
      generate_listening_task false level o a = fallback_listening_task level) ∧
    (∀ (level e : String) (a : Option (String × String)),
      generate_listening_task true level (GenOutcome.err e) a = fallback_listening_task level) := by
  refine ⟨?_, fun _ _ _ => rfl, fun _ _ _ => rfl⟩
  intro level
  unfold fallback_listening_task listening_bank_get task_fingerprint
  split_ifs <;> exact ⟨rfl, rfl, rfl, rfl⟩

theorem exampleOne_score : listeningScore exampleTaskOne [some "A"] = 100 := by
  have hm : listeningMatches [some "A"] 0 exampleTaskOne.questions = 1 := by decide
  have hl : exampleTaskOne.questions.length = 1 := by decide
  simp only [listeningScore, hm, hl]
  norm_num

theorem exampleOne_feedback :
    (evaluate_listening_answers exampleTaskOne [some "A"]).2 =
      ["Excellent — all answers correct. Try a higher level next time."] := by
  rw [evaluate_listening_answers_eq]
  have hc : listeningCorrections [some "A"] 0 exampleTaskOne.questions = [] := by decide
  simp [listeningFeedbackSpec, exampleOne_score, hc]

/-- Claim C8 counterexample: the listening evaluation of a one-question
task answered correctly is an EvaluationResult with score 100 and a
feedback sequence of exactly 1 string — fewer than the 5 the claim
requires of every result. -/
theorem c8_feedback_bounds_counterexample :
    (evaluate_listening_answers exampleTaskOne [some "A"]).1 = 100 ∧
    (evaluate_listening_answers exampleTaskOne [some "A"]).2.length = 1 ∧
    (evaluate_listening_answers exampleTaskOne [some "A"]).2.length < 5 := by
  refine ⟨?_, ?_, ?_⟩
  · rw [evaluate_listening_answers_eq]
    exact exampleOne_score
  · rw [exampleOne_feedback]
    rfl
  · rw [exampleOne_feedback]
    norm_num

/-- Claim C8 (amended): every EvaluationResult of the three strategies
has a score in [0,100] (for the AI paths, given a schema-conforming
response, which the requested JSON schema enforces) and a nonempty
feedback sequence; the 5-20 length band holds only for schema-validated
AI successes, while the fallback and degraded paths emit 1-3 lines. -/
theorem c8_result_bounds_amended :
    (∀ (configured : Bool) (text : String) (outcome : AIOutcome),
      schemaOK 5 20 outcome →
        0 ≤ (generate_ai_feedback_writing configured text outcome).score ∧
        (generate_ai_feedback_writing configured text outcome).score ≤ 100 ∧
        (generate_ai_feedback_writing configured text outcome).feedback ≠ []) ∧
    (∀ (configured : Bool) (transcript : String) (outcome : AIOutcome),
      schemaOK 5 15 outcome →
        0 ≤ (generate_ai_feedback_speaking configured transcript outcome).score ∧
        (generate_ai_feedback_speaking configured transcript outcome).score ≤ 100 ∧
        (generate_ai_feedback_speaking configured transcript outcome).feedback ≠ []) ∧
    (∀ (task : ListeningTask) (ans : List (Option String)),
      0 ≤ (evaluate_listening_answers task ans).1 ∧
      (evaluate_listening_answers task ans).1 ≤ 100 ∧
      (evaluate_listening_answers task ans).2 ≠ []) := by
  refine ⟨?_, ?_, ?_⟩
  · intro cfg text o hok
    cases cfg with
    | false =>
      refine ⟨?_, ?_, ?_⟩
      · show (0 : ℚ) ≤ min 100 (50 + (if 80 ≤ (pyWords text).length then 10 else 0))
        by_cases hw : 80 ≤ (pyWords text).length <;> simp [hw] <;> norm_num
      · show min 100 (50 + (if 80 ≤ (pyWords text).length then (10 : ℚ) else 0)) ≤ 100
        exact min_le_left _ _
      · show ["AI service is not configured (missing OPENAI_API_KEY).",
              "Fallback evaluation was used.",
              "Set OPENAI_API_KEY and try again for full AI feedback."] ≠ []
        simp
    | true =>
      cases o with
      | ok s fb =>
        obtain ⟨h0, h1, hlo, _⟩ := hok s fb rfl
        exact ⟨h0, h1, by
          intro hnil
          have hnil2 : fb = [] := hnil
          rw [hnil2] at hlo
          simp at hlo⟩
      | err n r =>
        refine ⟨?_, ?_, ?_⟩
        · show (0 : ℚ) ≤ 55
          norm_num
        · show (55 : ℚ) ≤ 100
          norm_num
        · show ["AI evaluation failed temporarily.",
                "Please try again later.",
                "Debug: " ++ n] ≠ []
          simp
  · intro cfg t o hok
    cases cfg with
    | false =>
      refine ⟨le_refl 0, ?_, ?_⟩
      · show (0 : ℚ) ≤ 100
        norm_num
      · show ["AI speaking feedback unavailable (missing OPENAI_API_KEY).",
              "Enable OpenAI billing/credits to get transcription + speaking feedback."] ≠ []
        simp
    | true =>
      cases o with
      | ok s fb =>
        obtain ⟨h0, h1, hlo, _⟩ := hok s fb rfl
        exact ⟨h0, h1, by
          intro hnil
          have hnil2 : fb = [] := hnil
          rw [hnil2] at hlo
          simp at hlo⟩
      | err n r =>
        by_cases hq : containsSub r "insufficient_quota" = true
        · refine ⟨?_, ?_, ?_⟩ <;> simp [generate_ai_feedback_speaking, hq]
        · refine ⟨?_, ?_, ?_⟩ <;> simp [generate_ai_feedback_speaking, hq] <;> norm_num
  · intro task ans
    rw [evaluate_listening_answers_eq]
    refine ⟨?_, ?_, ?_⟩
    · show 0 ≤ listeningScore task ans
      unfold listeningScore
      split_ifs
      · norm_num
      · positivity
    · show listeningScore task ans ≤ 100
      unfold listeningScore
      split_ifs with h
      · norm_num
      · have hm := listeningMatches_le ans task.questions 0
        have hl : 0 < (task.questions.length : ℚ) := by
          have hp : 0 < task.questions.length := Nat.pos_of_ne_zero h
          exact_mod_cast hp
        have hmq : (listeningMatches ans 0 task.questions : ℚ) ≤ (task.questions.length : ℚ) := by
          exact_mod_cast hm
        rw [div_mul_eq_mul_div, div_le_iff hl]
        linarith
    · show listeningFeedbackSpec task ans ≠ []
      unfold listeningFeedbackSpec
      split_ifs <;> simp

/-- Witness for C8 (amended) at a concrete input: the unconfigured
writing evaluation of the empty essay satisfies the bounds (the schema
hypothesis is discharged vacuously for a failed call). -/
theorem c8_result_bounds_witness :
    0 ≤ (generate_ai_feedback_writing false "" (AIOutcome.err "E" "E")).score ∧
    (generate_ai_feedback_writing false "" (AIOutcome.err "E" "E")).score ≤ 100 ∧
    (generate_ai_feedback_writing false "" (AIOutcome.err "E" "E")).feedback ≠ [] :=
  c8_result_bounds_amended.1 false "" (AIOutcome.err "E" "E")
    (fun _ _ h => AIOutcome.noConfusion h)

theorem aString_injective : Function.Injective aString := by
  intro m n h
  have h2 : List.replicate m 'a' = List.replicate n 'a' := congrArg String.data h
  simpa using congrArg List.length h2

/-- Claim C9 counterexample: it is not the case that any change to the
title or body yields a different fingerprint — the fingerprint is a
truncated 12-hex-character (48-bit, and a fortiori 160-bit) hash, so by
cardinality the map from (title, body) pairs to fingerprints cannot be
injective: infinitely many distinct titles map into the finite digest
space. -/
theorem c9_fingerprint_injectivity_counterexample :
    ¬ (∀ t1 b1 t2 b2 : String, (t1, b1) ≠ (t2, b2) →
        task_fingerprint t1 b1 ≠ task_fingerprint t2 b2) := by
  intro H
  have hinj : Function.Injective (fun n : Nat =>
      (⟨sha1Nat (utf8Bytes (aString n ++ "\n" ++ "")), sha1Nat_lt _⟩ : Fin (2 ^ 160))) := by
    intro m n hmn
    by_contra hne
    have hpair : ((aString m, "") : String × String) ≠ (aString n, "") := by
      intro hp
      exact hne (aString_injective (congrArg Prod.fst hp))
    have hdig : sha1Nat (utf8Bytes (aString m ++ "\n" ++ "")) =
        sha1Nat (utf8Bytes (aString n ++ "\n" ++ "")) := congrArg Fin.val hmn
    refine H _ _ _ _ hpair ?_
    unfold task_fingerprint _task_id_for
    rw [hdig]
  obtain ⟨m, n, hmn, he⟩ := Finite.exists_ne_map_eq_of_infinite (fun n : Nat =>
    (⟨sha1Nat (utf8Bytes (aString n ++ "\n" ++ "")), sha1Nat_lt _⟩ : Fin (2 ^ 160)))
  exact hmn (hinj he)

/-- Claim C9 (amended): the fingerprint is stable — it is a pure
function of the concatenated text `title + "\n" + body`, so repeated
computations over identical title+body text give the same identifier —
and it is always a 12-character (hex) string; distinct content is not
guaranteed a distinct identifier (collisions of the truncated hash
necessarily exist). -/
theorem c9_fingerprint_stability_amended :
    (∀ t1 b1 t2 b2 : String, t1 ++ "\n" ++ b1 = t2 ++ "\n" ++ b2 →
      task_fingerprint t1 b1 = task_fingerprint t2 b2) ∧
    (∀ t b : String, (task_fingerprint t b).length = 12) := by
  constructor
  · intro t1 b1 t2 b2 h
    unfold task_fingerprint
    rw [h]
  · intro t b
    show ((toHexChars 40 (sha1Nat (utf8Bytes (t ++ "\n" ++ b)))).take 12).length = 12
    rw [List.length_take, toHexChars_length]
    decide

/-- Witness for C9 (amended) at a concrete input. -/
theorem c9_fingerprint_stability_witness :
    task_fingerprint "a" "b" = task_fingerprint "a" "b" ∧
    (task_fingerprint "a" "b").length = 12 :=
  ⟨c9_fingerprint_stability_amended.1 "a" "b" "a" "b" rfl,
   c9_fingerprint_stability_amended.2 "a" "b"⟩

/-- Claim C10: every submission row the three evaluation routes persist
carries a non-null numeric score and non-null feedback text: whenever a
route inserts a row (rather than rejecting the request), both nullable
columns are set. -/
theorem c10_routes_persist_score_and_feedback :
    (∀ (essay : String) (configured : Bool) (outcome : AIOutcome),
      Option.all (fun r => r.ai_score.isSome && r.ai_feedback.isSome)
        (writing_route essay configured outcome) = true) ∧
    (∀ (audioOk : Bool) (transcript : Option String) (configured : Bool) (outcome : AIOutcome),
      Option.all (fun r => r.ai_score.isSome && r.ai_feedback.isSome)
        (speaking_route audioOk transcript configured outcome) = true) ∧
    (∀ (task : Option ListeningTask) (form : Nat → Option String),
      Option.all (fun r => r.ai_score.isSome && r.ai_feedback.isSome)
        (listening_route task form) = true) := by
  refine ⟨?_, ?_, ?_⟩
  · intro essay cfg o
    simp only [writing_route]
    split_ifs <;> rfl
  · intro a t cfg o
    simp only [speaking_route]
    split_ifs <;> rfl
  · intro task form
    cases task <;> rfl
